import Mathlib

/-!
Verification of the drift-analysis orchestrator in `backend/services/analyzer.py`.

This file gives a shallow embedding of the analyzer module and proves the
specified properties about it.  Modelling conventions:

* Python dictionaries produced by the AI provider or the rule engine are
  embedded as records of `Option`-typed fields; an absent key (or a key whose
  value the code would coerce away, such as a non-list `issues` field or a
  non-numeric `drift_score`) is `none`.  `dict.get(k, d)` is `Option.getD`,
  and the Python expression `x or default` (whose falsy values for strings
  are `None` and `""`) is the helper `pyOr`.
* Python floats are modelled as exact numbers: `ℚ` wherever the code only
  adds, multiplies, divides, clamps and compares, and `ℝ` for the one
  transcendental step `raw_score ** 0.7`, modelled as `Real.rpow`.
  `round(x, 2)` is modelled as rounding to the nearest multiple of `1/100`
  (Mathlib `round`, half away from zero; Python rounds half to even — the
  two agree except at exact `.005` ties, which no proved statement touches).
* Collaborators keep their spec contracts: the rule engine is a value (its
  list of raw issues), the per-issue scorer is a function returning
  `some score` (a normal return) or `none` (the call raised), and an AI
  provider call outcome is `AICallResult` (raised, returned a non-dict, or
  returned a dict).  Exception control flow of the source is embedded by the
  corresponding `try/except` branch structure of the definitions.
* Print statements and values used only for logging are not embedded.
-/

/-- A producer-side issue dictionary, as emitted by an AI provider or by
`_format_rule_engine_issues`.  Fields the analyzer reads are embedded;
`none` models an absent key. -/
structure IssueD where
  id : Option String := none
  title : Option String := none
  description : Option String := none
  explanation : Option String := none
  severity : Option String := none
  final_severity : Option String := none
  resource : Option String := none
  fix_suggestion : Option String := none
  oumi_score : Option ℚ := none
deriving Repr, DecidableEq

/-- A producer-side timeline event dictionary. -/
structure TimelineD where
  day : Option Int := none
  event : Option String := none
  severity : Option String := none
deriving Repr, DecidableEq

/-- A raw issue dictionary as returned by the rule engine collaborator
(`analyze_terraform` / `analyze_kubernetes`). -/
structure RuleIssue where
  rule_id : Option String := none
  title : Option String := none
  description : Option String := none
  severity : Option String := none
  resource : Option String := none
deriving Repr, DecidableEq

/-- A dictionary returned by an AI provider `analyze_infrastructure` call,
before validation.  `issues = none` models a missing or non-list `issues`
value (both are coerced to `[]` by validation), likewise `timeline`;
`drift_score = none` models a missing or non-numeric value. -/
structure AIDict where
  drift_score : Option ℚ := none
  issues : Option (List IssueD) := none
  timeline : Option (List TimelineD) := none
deriving Repr, DecidableEq

/-- The validated AI result: after `_analyze_with_ai` validation all three
keys are present with the coerced types. -/
structure AIResultV where
  drift_score : ℚ
  issues : List IssueD
  timeline : List TimelineD
deriving Repr, DecidableEq

/-- Pydantic `TimelineEvent` model of the response. -/
structure TimelineEvent where
  day : Int
  event : String
  severity : String
deriving Repr, DecidableEq

/-- Pydantic `Issue` model of the response. -/
structure Issue where
  id : String
  title : String
  description : String
  severity : String
  resource : String
  fix_suggestion : String
  oumi_score : Option ℚ
deriving Repr, DecidableEq

/-- Pydantic `AnalyzeResponse` model of the response. -/
structure AnalyzeResponse where
  drift_score : ℚ
  timeline : List TimelineEvent
  issues : List Issue
  provider : String
  model : Option String
deriving Repr, DecidableEq

/-- The provider choice computed by `_get_provider_and_model`:
a provider name, an optional model name, and whether a client instance
was returned (`None` client means rule-engine-only mode). -/
structure ProviderChoice where
  provider_name : String
  model_name : Option String
  clientPresent : Bool
deriving Repr, DecidableEq

/-- Outcome of awaiting `client.analyze_infrastructure(content, file_type)`:
the call raised, returned `None` or any non-dict value, or returned a dict. -/
inductive AICallResult where
  | raises
  | notADict
  | returnsDict (result : AIDict)
deriving Repr, DecidableEq

/-- Python `x or default` for an optional string: `None` and `""` are falsy. -/
def pyOr (v : Option String) (d : String) : String :=
  match v with
  | none => d
  | some s => if s = "" then d else s

/-- Python `str.lower()`, modelled as a character-wise lowercase map (all
severity strings involved are ASCII, where this agrees with Python).  This is
extensionally `String.toLower`, stated on the character list so that the
kernel can evaluate it on literals. -/
def strLower (s : String) : String := ⟨s.data.map Char.toLower⟩

/-- Python `f"{idx:03d}"`: decimal rendering zero-padded to width 3. -/
def pad3 (n : Nat) : String :=
  if n < 10 then "00" ++ toString n
  else if n < 100 then "0" ++ toString n
  else toString n

/-- Embedding of `_normalize_severity` (analyzer.py lines 667-678). -/
def _normalize_severity (severity : String) : String :=
  let severity_lower := strLower severity
  if severity_lower ∈ ["low", "medium", "high", "critical"] then severity_lower
  else if severity_lower ∈ ["info", "minor"] then "low"
  else if severity_lower ∈ ["major", "severe"] then "high"
  else "medium"

/-- Embedding of `_normalize_timeline_severity` (analyzer.py lines 681-692). -/
def _normalize_timeline_severity (severity : String) : String :=
  let severity_lower := strLower severity
  if severity_lower ∈ ["info", "low", "medium", "high"] then severity_lower
  else if severity_lower ∈ ["warning", "warn"] then "medium"
  else if severity_lower ∈ ["critical", "error"] then "high"
  else "info"

/-- Embedding of `_map_severity_to_timeline` (analyzer.py lines 651-664):
`mapping.get(severity, "medium")`. -/
def _map_severity_to_timeline (severity : String) : String :=
  if severity = "low" then "low"
  else if severity = "medium" then "medium"
  else if severity = "high" then "high"
  else if severity = "critical" then "high"
  else "medium"

/-- The `severity_order` dict of `_generate_timeline_skeleton`, applied as
`severity_order.get(x.get("severity", "medium"), 2)`. -/
def severity_order (s : String) : Nat :=
  if s = "critical" then 4
  else if s = "high" then 3
  else if s = "medium" then 2
  else if s = "low" then 1
  else 2

/-- The `days_per_severity` dict of `_generate_timeline_skeleton`, applied as
`days_per_severity.get(severity, 10)`. -/
def days_per_severity (s : String) : Int :=
  if s = "critical" then 2
  else if s = "high" then 5
  else if s = "medium" then 10
  else if s = "low" then 15
  else 10

/-- The `severity_scores` fallback table used when an individual scorer call
raises, applied as `severity_scores.get(severity, 0.5)`. -/
def severity_scores (severity : String) : ℚ :=
  if severity = "low" then 0.25
  else if severity = "medium" then 0.5
  else if severity = "high" then 0.75
  else if severity = "critical" then 0.95
  else 0.5

/-- The `severity_weights` table of `_calculate_drift_score`, applied as
`severity_weights.get(severity, 0.4)`. -/
def severity_weights (severity : String) : ℚ :=
  if severity = "critical" then 1.0
  else if severity = "high" then 0.7
  else if severity = "medium" then 0.4
  else if severity = "low" then 0.2
  else 0.4

/-- The `le` test used to sort issues by severity descending in
`_generate_timeline_skeleton`: Python `sorted(key=severity_order.get(...),
reverse=True)` is a stable descending sort, i.e. a stable merge sort under
`key b ≤ key a`. -/
def timelineSortLe (a b : IssueD) : Bool :=
  decide (severity_order (b.severity.getD "medium")
            ≤ severity_order (a.severity.getD "medium"))

/-- The issue loop of `_generate_timeline_skeleton` (analyzer.py lines
633-646): one event per issue, at a cumulative running day offset. -/
def buildTimelineEvents : Int → List IssueD → List TimelineD
  | _, [] => []
  | current_day, issue :: rest =>
    let severity := issue.severity.getD "medium"
    let day := current_day + days_per_severity severity
    { day := some day,
      event := some ((issue.title.getD "Configuration issue")
                       ++ " detected in " ++ (issue.resource.getD "resource")),
      severity := some (_map_severity_to_timeline severity) }
      :: buildTimelineEvents day rest

/-- Embedding of `_generate_timeline_skeleton` (analyzer.py lines 591-648). -/
def _generate_timeline_skeleton (issues : List IssueD) : List TimelineD :=
  if issues = [] then
    [{ day := some 0,
       event := some "Infrastructure deployment completed successfully with no issues detected.",
       severity := some "info" }]
  else
    let sorted_issues := issues.mergeSort timelineSortLe
    { day := some 0,
      event := some "Initial infrastructure deployment detected",
      severity := some "info" }
      :: buildTimelineEvents 0 (sorted_issues.take 5)

/-- Embedding of `_format_rule_engine_issues` (analyzer.py lines 530-553);
the extra argument is the running `enumerate(raw_issues, 1)` index. -/
def _format_rule_engine_issues_from (idx : Nat) : List RuleIssue → List IssueD
  | [] => []
  | issue :: rest =>
    { id := some (pyOr issue.rule_id ("rule-" ++ pad3 idx)),
      title := some (issue.title.getD "Configuration Issue"),
      description := some (issue.description.getD ""),
      severity := some (issue.severity.getD "medium"),
      resource := some (issue.resource.getD "unknown"),
      fix_suggestion := some "Review and fix the configuration issue." }
      :: _format_rule_engine_issues_from (idx + 1) rest

/-- Embedding of `_format_rule_engine_issues` starting at index 1. -/
def _format_rule_engine_issues (raw_issues : List RuleIssue) : List IssueD :=
  _format_rule_engine_issues_from 1 raw_issues

/-- Embedding of `_add_oumi_scores` (analyzer.py lines 556-588).  `scorer`
is the `score_issue_with_oumi` collaborator: `some score` models a normal
return (the result of `float(...)`), `none` models the call raising; a raise
is caught per issue and substituted with the `severity_scores` table. -/
def _add_oumi_scores (scorer : IssueD → Option ℚ) (issues : List IssueD) :
    List IssueD :=
  if issues = [] then []
  else issues.map (fun issue =>
    match scorer issue with
    | some oumi_score => { issue with oumi_score := some oumi_score }
    | none =>
      let severity := strLower (issue.severity.getD "medium")
      { issue with oumi_score := some (severity_scores severity) })

/-- The per-severity counters of `_calculate_drift_score`:
`sum(1 for issue in issues if issue.get("severity", "").lower() == s)`. -/
def countSeverity (issues : List IssueD) (s : String) : Nat :=
  (issues.filter (fun issue => strLower (issue.severity.getD "") = s)).length

/-- The `total_weight` accumulation loop of `_calculate_drift_score`:
an issue contributes its `oumi_score` when present, otherwise the
`severity_weights` table value for its lowercased severity. -/
def totalWeight (issues : List IssueD) : ℚ :=
  issues.foldl (fun acc issue =>
    acc + (match issue.oumi_score with
           | some w => w
           | none => severity_weights (strLower (issue.severity.getD "medium")))) 0

/-- Embedding of `_calculate_drift_score` (analyzer.py lines 695-758).
The float power `raw_score ** 0.7` is modelled as `Real.rpow`, and
`round(drift_score, 2)` as rounding to the nearest multiple of `1/100`;
`low_count` is computed by the source only for logging and is omitted. -/
noncomputable def _calculate_drift_score (issues : List IssueD) : ℚ :=
  if issues = [] then 0
  else
    let critical_count := countSeverity issues "critical"
    let high_count := countSeverity issues "high"
    let medium_count := countSeverity issues "medium"
    if critical_count > 3 then
      min (0.9 + ((min (critical_count - 3) 7 : ℕ) : ℚ) * 0.01) 1.0
    else
      let total_weight := totalWeight issues
      let raw_score : ℚ := min (total_weight / 10.0) 1.0
      let drift_score : ℝ := min ((raw_score : ℝ) ^ (0.7 : ℝ)) 1.0
      let drift_score : ℝ :=
        if medium_count ≥ 5 ∧ critical_count = 0 ∧ high_count = 0 then
          max 0.4 (min 0.6 drift_score)
        else drift_score
      ((round (drift_score * 100) : ℤ) : ℚ) / 100

/-- The validation block of `_analyze_with_ai` (analyzer.py lines 379-404):
coerce missing/non-list `issues` and `timeline` to `[]`, coerce a missing or
non-numeric `drift_score` to `0.0`, scale a score above 1 by `1/100` capped
at 1, and clamp the score into `[0, 1]`. -/
def validateAIResult (result : AIDict) : AIResultV :=
  { issues := result.issues.getD []
    timeline := result.timeline.getD []
    drift_score :=
      match result.drift_score with
      | some score =>
        let score := if score > 1.0 then min (score / 100.0) 1.0 else score
        max 0.0 (min 1.0 score)
      | none => 0.0 }

/-- Embedding of `_analyze_with_ai` (analyzer.py lines 344-414): with no
client the function returns `None`; a raised exception or a non-dict result
also yields `None`; a dict result is validated.  (Every modelled client has
the `analyze_infrastructure` capability.) -/
def _analyze_with_ai (clientPresent : Bool) (callResult : AICallResult) :
    Option AIResultV :=
  if clientPresent then
    match callResult with
    | .returnsDict result => some (validateAIResult result)
    | _ => none
  else none

/-- The response-assembly loop over `issues` (analyzer.py lines 199-220);
the extra argument is the running `enumerate(issues, 1)` index. -/
def buildIssuesFrom (idx : Nat) : List IssueD → List Issue
  | [] => []
  | issue :: rest =>
    { id := pyOr issue.id ("issue-" ++ pad3 idx),
      title := pyOr issue.title "Infrastructure Issue",
      description := pyOr issue.description (issue.explanation.getD ""),
      severity := _normalize_severity
        (pyOr issue.severity (issue.final_severity.getD "medium")),
      resource := pyOr issue.resource "unknown",
      fix_suggestion := pyOr issue.fix_suggestion
        "Review and fix the configuration issue.",
      oumi_score := issue.oumi_score }
      :: buildIssuesFrom (idx + 1) rest

/-- Embedding of `analyze_content` (analyzer.py lines 95-235).  Inputs are
the provider choice computed by `_get_provider_and_model`, the outcome of
the AI provider call, the rule-engine result for this content and file type
(the rule engine collaborator never raises), and the per-issue scorer.
Under these collaborator contracts nothing inside the `try` block raises
(`_analyze_with_ai` catches its own exceptions and returns `None`), so the
`except` branch of the source (lines 156-168) is unreachable and the
embedding is the `try`-path semantics. -/
noncomputable def analyze_content (choice : ProviderChoice)
    (callResult : AICallResult) (rule_engine_issues : List RuleIssue)
    (scorer : IssueD → Option ℚ) : AnalyzeResponse :=
  let ai_result := _analyze_with_ai choice.clientPresent callResult
  -- `if ai_result and ai_result.get("issues"):` — the validated dict is
  -- truthy, and a list is truthy exactly when it is non-empty.
  let step : List IssueD × List TimelineD × Option ℚ × String × Option String :=
    match ai_result with
    | some v =>
      if v.issues ≠ [] then
        let s := v.drift_score
        let s := if s > 1.0 then min (s / 100.0) 1.0 else s
        let s := max 0.0 (min 1.0 s)
        (v.issues, v.timeline, some s, choice.provider_name, choice.model_name)
      else
        let issues := _format_rule_engine_issues rule_engine_issues
        let timeline := _generate_timeline_skeleton issues
        if choice.provider_name = "" ∨ choice.provider_name = "rule-engine" then
          (issues, timeline, none, "rule-engine", none)
        else
          (issues, timeline, none, choice.provider_name, choice.model_name)
    | none =>
      let issues := _format_rule_engine_issues rule_engine_issues
      let timeline := _generate_timeline_skeleton issues
      if choice.provider_name = "" ∨ choice.provider_name = "rule-engine" then
        (issues, timeline, none, "rule-engine", none)
      else
        (issues, timeline, none, choice.provider_name, choice.model_name)
  let issues := _add_oumi_scores scorer step.1
  let drift_score :=
    match step.2.2.1 with
    | some s => s
    | none => _calculate_drift_score issues
  let drift_score := max 0.0 (min 1.0 drift_score)
  { drift_score := drift_score,
    timeline := step.2.1.map (fun event =>
      { day := event.day.getD 0,
        event := event.event.getD "",
        severity := _normalize_timeline_severity (event.severity.getD "info") }),
    issues := buildIssuesFrom 1 issues,
    provider := step.2.2.2.1,
    model := step.2.2.2.2 }

/-- The cumulative day schedule of the synthesized timeline: a running
offset advanced by the per-severity increment of each issue in order
(critical +2, high +5, medium +10, low +15, unrecognized +10). -/
def cumulativeDays (start : Int) : List IssueD → List Int
  | [] => []
  | issue :: rest =>
    let d := start + days_per_severity (issue.severity.getD "medium")
    d :: cumulativeDays d rest

/-- A critical-severity issue record, as the rule engine or an AI provider
would emit it. -/
def criticalIssue : IssueD := { severity := some "critical" }

/-- A medium-severity issue record. -/
def mediumIssue : IssueD := { severity := some "medium" }

/-- A high-severity issue record. -/
def highIssue : IssueD := { severity := some "high" }

/-! ## Severity normalization (C8) -/

/-- The result of `_normalize_severity` is always a canonical issue severity. -/
lemma _normalize_severity_mem (s : String) :
    _normalize_severity s ∈ (["low", "medium", "high", "critical"] : List String) := by
  simp only [_normalize_severity]
  split
  · next h => simpa using h
  · split
    · decide
    · split
      · decide
      · decide

/-- Canonical issue severities are fixed points of `_normalize_severity`. -/
lemma _normalize_severity_fixed (t : String)
    (ht : t ∈ (["low", "medium", "high", "critical"] : List String)) :
    _normalize_severity t = t := by
  fin_cases ht <;> decide

/-- The result of `_normalize_timeline_severity` is always a canonical
timeline severity. -/
lemma _normalize_timeline_severity_mem (s : String) :
    _normalize_timeline_severity s ∈ (["info", "low", "medium", "high"] : List String) := by
  simp only [_normalize_timeline_severity]
  split
  · next h => simpa using h
  · split
    · decide
    · split
      · decide
      · decide

/-- Canonical timeline severities are fixed points of
`_normalize_timeline_severity`. -/
lemma _normalize_timeline_severity_fixed (t : String)
    (ht : t ∈ (["info", "low", "medium", "high"] : List String)) :
    _normalize_timeline_severity t = t := by
  fin_cases ht <;> decide

/-- `_normalize_severity` maps a string whose lowercase form is not any
recognized severity to `"medium"`. -/
lemma _normalize_severity_unrecognized (s : String)
    (h : strLower s ∉ (["low", "medium", "high", "critical",
                        "info", "minor", "major", "severe"] : List String)) :
    _normalize_severity s = "medium" := by
  simp only [List.mem_cons, List.not_mem_nil, or_false, not_or] at h
  obtain ⟨h1, h2, h3, h4, h5, h6, h7, h8⟩ := h
  simp [_normalize_severity, h1, h2, h3, h4, h5, h6, h7, h8]

/-- `_normalize_timeline_severity` maps a string whose lowercase form is not
any recognized timeline severity to `"info"`. -/
lemma _normalize_timeline_severity_unrecognized (s : String)
    (h : strLower s ∉ (["info", "low", "medium", "high",
                        "warning", "warn", "critical", "error"] : List String)) :
    _normalize_timeline_severity s = "info" := by
  simp only [List.mem_cons, List.not_mem_nil, or_false, not_or] at h
  obtain ⟨h1, h2, h3, h4, h5, h6, h7, h8⟩ := h
  simp [_normalize_timeline_severity, h1, h2, h3, h4, h5, h6, h7, h8]

/-- C8 counterexample: `"Low"` is canonical up to case, yet issue-severity
normalization does not return it unchanged — it returns the lowercased form,
so the claim that case-insensitively canonical inputs are returned unchanged
fails at `"Low"`. -/
theorem normalize_severity_changes_case_insensitive_canonical_input :
    _normalize_severity "Low" = "low" ∧ _normalize_severity "Low" ≠ "Low" := by
  constructor
  · decide
  · decide

/-- C8 (amended): both severity normalizations are total and idempotent.
Issue-severity normalization returns the lowercased input whenever the input
is canonical up to case (hence returns the input itself exactly when it is
already lowercase canonical), maps `info`/`minor` to `low`, `major`/`severe`
to `high`, and anything else to `medium`; timeline-severity normalization
returns lowercase canonical inputs unchanged, maps `warning`/`warn` to
`medium`, `critical`/`error` to `high`, and anything else to `info`. -/
theorem severity_normalization_total_idempotent (s : String) :
    _normalize_severity (_normalize_severity s) = _normalize_severity s ∧
    _normalize_timeline_severity (_normalize_timeline_severity s)
      = _normalize_timeline_severity s ∧
    (strLower s ∈ (["low", "medium", "high", "critical"] : List String) →
      _normalize_severity s = strLower s) ∧
    (s ∈ (["low", "medium", "high", "critical"] : List String) →
      _normalize_severity s = s) ∧
    (strLower s ∈ (["info", "minor"] : List String) →
      _normalize_severity s = "low") ∧
    (strLower s ∈ (["major", "severe"] : List String) →
      _normalize_severity s = "high") ∧
    (strLower s ∉ (["low", "medium", "high", "critical",
                    "info", "minor", "major", "severe"] : List String) →
      _normalize_severity s = "medium") ∧
    (s ∈ (["info", "low", "medium", "high"] : List String) →
      _normalize_timeline_severity s = s) ∧
    (strLower s ∈ (["warning", "warn"] : List String) →
      _normalize_timeline_severity s = "medium") ∧
    (strLower s ∈ (["critical", "error"] : List String) →
      _normalize_timeline_severity s = "high") ∧
    (strLower s ∉ (["info", "low", "medium", "high",
                    "warning", "warn", "critical", "error"] : List String) →
      _normalize_timeline_severity s = "info") := by
  refine ⟨_normalize_severity_fixed _ (_normalize_severity_mem s),
          _normalize_timeline_severity_fixed _ (_normalize_timeline_severity_mem s),
          ?_, ?_, ?_, ?_, _normalize_severity_unrecognized s,
          ?_, ?_, ?_, _normalize_timeline_severity_unrecognized s⟩
  · intro h
    simp only [_normalize_severity]
    rw [if_pos h]
  · intro h
    fin_cases h <;> decide
  · intro h
    simp only [List.mem_cons, List.not_mem_nil, or_false] at h
    rcases h with h | h <;> simp [_normalize_severity, h]
  · intro h
    simp only [List.mem_cons, List.not_mem_nil, or_false] at h
    rcases h with h | h <;> simp [_normalize_severity, h]
  · intro h
    fin_cases h <;> decide
  · intro h
    simp only [List.mem_cons, List.not_mem_nil, or_false] at h
    rcases h with h | h <;> simp [_normalize_timeline_severity, h]
  · intro h
    simp only [List.mem_cons, List.not_mem_nil, or_false] at h
    rcases h with h | h <;> simp [_normalize_timeline_severity, h]

/-- Witness for the amended C8 theorem at concrete inputs: idempotence at
`"Warning"`, `"CRITICAL"` is lowercased, timeline `"warning"` becomes
`"medium"`, timeline `"critical"` becomes `"high"`. -/
theorem severity_normalization_total_idempotent_witness :
    _normalize_severity (_normalize_severity "Warning")
      = _normalize_severity "Warning" ∧
    _normalize_severity "CRITICAL" = "critical" ∧
    _normalize_timeline_severity "warning" = "medium" ∧
    _normalize_timeline_severity "critical" = "high" :=
  ⟨(severity_normalization_total_idempotent "Warning").1,
   (severity_normalization_total_idempotent "CRITICAL").2.2.1 (by decide),
   (severity_normalization_total_idempotent
      "warning").2.2.2.2.2.2.2.2.1 (by decide),
   (severity_normalization_total_idempotent
      "critical").2.2.2.2.2.2.2.2.2.1 (by decide)⟩

/-! ## AI-result validation (C4) -/

/-- The validated drift score always lies in the unit interval. -/
lemma validateAIResult_drift_mem (d : AIDict) :
    0 ≤ (validateAIResult d).drift_score ∧ (validateAIResult d).drift_score ≤ 1 := by
  have e1 : (1.0 : ℚ) = 1 := by norm_num
  have e0 : (0.0 : ℚ) = 0 := by norm_num
  rcases hd : d.drift_score with _ | s
  · simp only [validateAIResult, hd, e0]
    norm_num
  · simp only [validateAIResult, hd, e1, e0]
    constructor
    · exact le_max_left _ _
    · exact max_le (by norm_num) (le_trans (min_le_left _ _) (by norm_num))

/-- C4: validation coerces a missing (or non-list) `issues`/`timeline` to
`[]` and a missing (or non-numeric) `drift_score` to `0`; a numeric score
above 1 is divided by 100 and capped at 1, a score at most 1 is clamped from
below at 0, and the validated score always lies in `[0, 1]` — in particular
every score outside `[0, 100]` or negative ends up in `[0, 1]`. -/
theorem validateAIResult_coercion_and_clamping (d : AIDict) :
    (d.issues = none → (validateAIResult d).issues = []) ∧
    (d.timeline = none → (validateAIResult d).timeline = []) ∧
    (d.drift_score = none → (validateAIResult d).drift_score = 0) ∧
    (∀ s : ℚ, d.drift_score = some s → 1 < s →
      (validateAIResult d).drift_score = min (s / 100) 1) ∧
    (∀ s : ℚ, d.drift_score = some s → s ≤ 1 →
      (validateAIResult d).drift_score = max 0 s) ∧
    0 ≤ (validateAIResult d).drift_score ∧
    (validateAIResult d).drift_score ≤ 1 := by
  refine ⟨fun h => by simp [validateAIResult, h],
          fun h => by simp [validateAIResult, h],
          fun h => by norm_num [validateAIResult, h],
          ?_, ?_, (validateAIResult_drift_mem d).1, (validateAIResult_drift_mem d).2⟩
  · intro s hs h1
    have e1 : (1.0 : ℚ) = 1 := by norm_num
    have e100 : (100.0 : ℚ) = 100 := by norm_num
    have e0 : (0.0 : ℚ) = 0 := by norm_num
    simp only [validateAIResult, hs, e1, e100, e0]
    rw [if_pos h1]
    have hnn : (0 : ℚ) ≤ min (s / 100) 1 :=
      le_min (div_nonneg (by linarith) (by norm_num)) (by norm_num)
    rw [min_eq_right (min_le_right (s / 100) 1), max_eq_right hnn]
  · intro s hs h1
    have e1 : (1.0 : ℚ) = 1 := by norm_num
    have e0 : (0.0 : ℚ) = 0 := by norm_num
    simp only [validateAIResult, hs, e1, e0]
    rw [if_neg (not_lt.mpr h1), min_eq_right h1]

/-- Witness for C4 at concrete inputs: an all-missing dict validates to
score 0 with empty lists, a score of 250 is scaled and capped to 1, and a
score of -3 is clamped up to 0. -/
theorem validateAIResult_coercion_and_clamping_witness :
    (validateAIResult {}).issues = [] ∧
    (validateAIResult {}).timeline = [] ∧
    (validateAIResult {}).drift_score = 0 ∧
    (validateAIResult { drift_score := some 250 }).drift_score = min (250 / 100) 1 ∧
    (validateAIResult { drift_score := some (-3) }).drift_score = max 0 (-3) :=
  ⟨(validateAIResult_coercion_and_clamping {}).1 rfl,
   (validateAIResult_coercion_and_clamping {}).2.1 rfl,
   (validateAIResult_coercion_and_clamping {}).2.2.1 rfl,
   (validateAIResult_coercion_and_clamping
      { drift_score := some 250 }).2.2.2.1 250 rfl (by norm_num),
   (validateAIResult_coercion_and_clamping
      { drift_score := some (-3) }).2.2.2.2.1 (-3) rfl (by norm_num)⟩

/-! ## Drift-score computation (C5, C6, C10) -/

/-- A positive severity count forces a non-empty issue list. -/
lemma countSeverity_pos_ne_nil {issues : List IssueD} {s : String}
    (h : 0 < countSeverity issues s) : issues ≠ [] := by
  rintro rfl
  simp [countSeverity] at h

/-- `round` is monotone (derived from `round_eq` and floor monotonicity). -/
lemma round_monotone_real {x y : ℝ} (h : x ≤ y) : round x ≤ round y := by
  rw [round_eq, round_eq]
  exact Int.floor_mono (by linarith)

/-- On the critical-dominance branch the drift score is exactly the linear
formula, and it lies between 0.91 and 0.97. -/
lemma calc_drift_critical (issues : List IssueD)
    (h : 3 < countSeverity issues "critical") :
    _calculate_drift_score issues
      = 0.9 + ((min (countSeverity issues "critical" - 3) 7 : ℕ) : ℚ) * 0.01 ∧
    0.91 ≤ _calculate_drift_score issues ∧
    _calculate_drift_score issues ≤ 0.97 := by
  have hne : issues ≠ [] :=
    @countSeverity_pos_ne_nil issues "critical" (by omega)
  set k : ℕ := min (countSeverity issues "critical" - 3) 7 with hkdef
  have hk1 : 1 ≤ k := le_min (by omega) (by omega)
  have hk7 : k ≤ 7 := min_le_right _ _
  have hkq1 : (1 : ℚ) ≤ (k : ℚ) := by exact_mod_cast hk1
  have hkq7 : (k : ℚ) ≤ 7 := by exact_mod_cast hk7
  have heq : _calculate_drift_score issues = 0.9 + (k : ℚ) * 0.01 := by
    simp only [_calculate_drift_score, if_neg hne]
    rw [if_pos h, ← hkdef]
    exact min_eq_left (by linarith)
  refine ⟨heq, ?_, ?_⟩ <;> rw [heq] <;> linarith

/-- C5: whenever the issue list has more than 3 critical-severity issues,
the fallback drift score equals `min (0.9 + 0.01 * min (criticalCount - 3) 7) 1`,
independently of every per-issue score (the weight-sum curve is not used),
and in particular it lies between 0.91 and 1. -/
theorem critical_dominance_drift_score (issues : List IssueD)
    (h : 3 < countSeverity issues "critical") :
    _calculate_drift_score issues
      = min (0.9 + ((min (countSeverity issues "critical" - 3) 7 : ℕ) : ℚ) * 0.01) 1 ∧
    0.91 ≤ _calculate_drift_score issues ∧
    _calculate_drift_score issues ≤ 1 := by
  obtain ⟨heq, hlo, hhi⟩ := calc_drift_critical issues h
  have hle1 : 0.9 + ((min (countSeverity issues "critical" - 3) 7 : ℕ) : ℚ) * 0.01 ≤ 1 := by
    rw [← heq]
    exact le_trans hhi (by norm_num)
  exact ⟨by rw [min_eq_left hle1]; exact heq, hlo, le_trans hhi (by norm_num)⟩

/-- Witness for C5: a list of exactly 4 critical issues and nothing else has
more than 3 critical issues and its fallback drift score is in [0.91, 1]. -/
theorem critical_dominance_drift_score_witness :
    3 < countSeverity (List.replicate 4 criticalIssue) "critical" ∧
    0.91 ≤ _calculate_drift_score (List.replicate 4 criticalIssue) ∧
    _calculate_drift_score (List.replicate 4 criticalIssue) ≤ 1 :=
  ⟨by decide,
   (critical_dominance_drift_score (List.replicate 4 criticalIssue) (by decide)).2⟩

/-- C10: on the critical-dominance branch the clamp at 1.0 is never binding:
the score is exactly `0.9 + 0.01 * min (criticalCount - 3) 7`, which lies in
[0.91, 0.97], so 1.0 is unreachable through this path. -/
theorem critical_path_score_capped_below_one (issues : List IssueD)
    (h : 3 < countSeverity issues "critical") :
    _calculate_drift_score issues
      = 0.9 + ((min (countSeverity issues "critical" - 3) 7 : ℕ) : ℚ) * 0.01 ∧
    0.91 ≤ _calculate_drift_score issues ∧
    _calculate_drift_score issues ≤ 0.97 :=
  calc_drift_critical issues h

/-- Witness for C10: with 12 critical issues the excess count saturates at 7
and the score still does not exceed 0.97. -/
theorem critical_path_score_capped_below_one_witness :
    3 < countSeverity (List.replicate 12 criticalIssue) "critical" ∧
    _calculate_drift_score (List.replicate 12 criticalIssue) ≤ 0.97 :=
  ⟨by decide,
   (critical_path_score_capped_below_one (List.replicate 12 criticalIssue)
      (by decide)).2.2⟩

/-- Rounding to 2 decimals keeps a band-clamped value inside [0.4, 0.6]. -/
lemma round2_band (x : ℝ) :
    (0.4 : ℚ) ≤ ((round (max 0.4 (min 0.6 x) * 100) : ℤ) : ℚ) / 100 ∧
    ((round (max 0.4 (min 0.6 x) * 100) : ℤ) : ℚ) / 100 ≤ 0.6 := by
  have hy1 : (0.4 : ℝ) ≤ max 0.4 (min 0.6 x) := le_max_left _ _
  have hy2 : max 0.4 (min 0.6 x) ≤ 0.6 := max_le (by norm_num) (min_le_left _ _)
  have h40 : (40 : ℤ) ≤ round (max 0.4 (min 0.6 x) * 100) := by
    have hle : ((40 : ℤ) : ℝ) ≤ max 0.4 (min 0.6 x) * 100 := by
      push_cast
      linarith
    have := round_monotone_real hle
    rwa [round_intCast] at this
  have h60 : round (max 0.4 (min 0.6 x) * 100) ≤ (60 : ℤ) := by
    have hle : max 0.4 (min 0.6 x) * 100 ≤ ((60 : ℤ) : ℝ) := by
      push_cast
      linarith
    have := round_monotone_real hle
    rwa [round_intCast] at this
  constructor
  · rw [le_div_iff₀ (by norm_num : (0 : ℚ) < 100)]
    have hq : (40 : ℚ) ≤ ((round (max 0.4 (min 0.6 x) * 100) : ℤ) : ℚ) := by
      exact_mod_cast h40
    linarith
  · rw [div_le_iff₀ (by norm_num : (0 : ℚ) < 100)]
    have hq : ((round (max 0.4 (min 0.6 x) * 100) : ℤ) : ℚ) ≤ 60 := by
      exact_mod_cast h60
    linarith

/-- C6: for every scored issue list with at least 5 medium-severity issues
and no critical and no high issues — whatever the per-issue scores and any
low-severity issues present — the fallback drift score lies in [0.4, 0.6]. -/
theorem medium_band_drift_score (issues : List IssueD)
    (hm : 5 ≤ countSeverity issues "medium")
    (hc : countSeverity issues "critical" = 0)
    (hh : countSeverity issues "high" = 0) :
    0.4 ≤ _calculate_drift_score issues ∧ _calculate_drift_score issues ≤ 0.6 := by
  have hne : issues ≠ [] := @countSeverity_pos_ne_nil issues "medium" (by omega)
  have hc3 : ¬ 3 < countSeverity issues "critical" := by omega
  simp only [_calculate_drift_score, if_neg hne, if_neg hc3]
  rw [if_pos ⟨hm, hc, hh⟩]
  exact round2_band _

/-- Witness for C6: a list of exactly 5 medium issues satisfies the band
hypotheses and its drift score is in [0.4, 0.6]. -/
theorem medium_band_drift_score_witness :
    5 ≤ countSeverity (List.replicate 5 mediumIssue) "medium" ∧
    countSeverity (List.replicate 5 mediumIssue) "critical" = 0 ∧
    0.4 ≤ _calculate_drift_score (List.replicate 5 mediumIssue) ∧
    _calculate_drift_score (List.replicate 5 mediumIssue) ≤ 0.6 :=
  ⟨by decide, by decide,
   (medium_band_drift_score (List.replicate 5 mediumIssue)
      (by decide) (by decide) (by decide)).1,
   (medium_band_drift_score (List.replicate 5 mediumIssue)
      (by decide) (by decide) (by decide)).2⟩

/-! ## Per-issue scoring stage (C9) -/

/-- C9: the scoring stage returns a list of the same length and order as its
input, each element identical to the corresponding input issue except for
the `oumi_score` field, which holds the scorer result — or the
`severity_scores` table value for that one issue when its scorer call
raises, without affecting any other issue. -/
theorem oumi_scoring_preserves_list (scorer : IssueD → Option ℚ)
    (issues : List IssueD) :
    (_add_oumi_scores scorer issues).length = issues.length ∧
    ∀ k : ℕ, (_add_oumi_scores scorer issues)[k]? =
      (issues[k]?).map (fun issue =>
        match scorer issue with
        | some oumi_score => { issue with oumi_score := some oumi_score }
        | none =>
          { issue with
            oumi_score := some (severity_scores (strLower (issue.severity.getD "medium"))) }) := by
  by_cases hne : issues = []
  · subst hne
    exact ⟨rfl, fun k => by simp [_add_oumi_scores]⟩
  · simp only [_add_oumi_scores, if_neg hne]
    exact ⟨List.length_map _ _, fun k => List.getElem?_map _ _ _⟩

/-! ## Fallback timeline synthesis (C7) -/

/-- Every per-severity day increment is positive. -/
lemma days_per_severity_pos (s : String) : 0 < days_per_severity s := by
  unfold days_per_severity
  split_ifs <;> norm_num

/-- `buildTimelineEvents` emits one event per issue. -/
lemma buildTimelineEvents_length (d : Int) (l : List IssueD) :
    (buildTimelineEvents d l).length = l.length := by
  induction l generalizing d with
  | nil => rfl
  | cons i rest ih => simp [buildTimelineEvents, ih]

/-- The event severities of `buildTimelineEvents` are the issue severities
mapped through `_map_severity_to_timeline`, in order. -/
lemma buildTimelineEvents_severities (d : Int) (l : List IssueD) :
    (buildTimelineEvents d l).map (fun e => e.severity)
      = l.map (fun i => some (_map_severity_to_timeline (i.severity.getD "medium"))) := by
  induction l generalizing d with
  | nil => rfl
  | cons i rest ih => simp [buildTimelineEvents, ih]

/-- The event days of `buildTimelineEvents` follow the cumulative schedule. -/
lemma buildTimelineEvents_days (d : Int) (l : List IssueD) :
    (buildTimelineEvents d l).map (fun e => e.day)
      = (cumulativeDays d l).map some := by
  induction l generalizing d with
  | nil => rfl
  | cons i rest ih => simp [buildTimelineEvents, cumulativeDays, ih]

/-- The events of `buildTimelineEvents` have strictly increasing days, all
above the starting offset. -/
lemma buildTimelineEvents_chain (l : List IssueD) : ∀ d : Int,
    List.Chain' (fun a b => a.day.getD 0 < b.day.getD 0) (buildTimelineEvents d l) ∧
    ∀ e ∈ (buildTimelineEvents d l).head?, d < e.day.getD 0 := by
  induction l with
  | nil =>
    intro d
    exact ⟨List.chain'_nil, by simp [buildTimelineEvents]⟩
  | cons i rest ih =>
    intro d
    constructor
    · rw [buildTimelineEvents]
      refine List.chain'_cons'.mpr ⟨?_, (ih _).1⟩
      intro y hy
      simpa using (ih (d + days_per_severity (i.severity.getD "medium"))).2 y hy
    · intro e he
      simp only [buildTimelineEvents, List.head?_cons, Option.mem_def,
        Option.some.injEq] at he
      subst he
      simpa using days_per_severity_pos (i.severity.getD "medium")

/-- C7: for an empty issue list the synthesized timeline is a single day-0
informational event; for a non-empty list it starts with the day-0 initial
deployment event, followed by one event per issue for the top-5 issues of
the stable descending severity sort, whose severities are the mapped issue
severities in sorted order, whose days follow the cumulative per-severity
schedule (+2 critical, +5 high, +10 medium, +15 low), and whose days are
strictly increasing. -/
theorem timeline_skeleton_shape (issues : List IssueD) :
    (issues = [] → _generate_timeline_skeleton issues =
      [{ day := some 0,
         event := some "Infrastructure deployment completed successfully with no issues detected.",
         severity := some "info" }]) ∧
    (issues ≠ [] →
      (_generate_timeline_skeleton issues).head? = some
        { day := some 0,
          event := some "Initial infrastructure deployment detected",
          severity := some "info" } ∧
      (_generate_timeline_skeleton issues).length = 1 + min 5 issues.length ∧
      (_generate_timeline_skeleton issues).tail.map (fun e => e.severity)
        = ((issues.mergeSort timelineSortLe).take 5).map
            (fun i => some (_map_severity_to_timeline (i.severity.getD "medium"))) ∧
      (_generate_timeline_skeleton issues).tail.map (fun e => e.day)
        = (cumulativeDays 0 ((issues.mergeSort timelineSortLe).take 5)).map some ∧
      List.Chain' (fun a b => a.day.getD 0 < b.day.getD 0)
        (_generate_timeline_skeleton issues)) := by
  constructor
  · intro h
    simp [_generate_timeline_skeleton, h]
  · intro h
    simp only [_generate_timeline_skeleton, if_neg h]
    refine ⟨rfl, ?_, ?_, ?_, ?_⟩
    · simp [buildTimelineEvents_length, List.length_take, List.length_mergeSort,
        Nat.add_comm]
    · rw [List.tail_cons]
      exact buildTimelineEvents_severities 0 _
    · rw [List.tail_cons]
      exact buildTimelineEvents_days 0 _
    · refine List.chain'_cons'.mpr ⟨?_, (buildTimelineEvents_chain _ 0).1⟩
      intro y hy
      simpa using (buildTimelineEvents_chain _ 0).2 y hy

/-- Witness for C7: the empty-list case, and a list with severities
[critical, high, medium] whose skeleton starts at day 0 and has strictly
increasing days. -/
theorem timeline_skeleton_shape_witness :
    _generate_timeline_skeleton [] =
      [{ day := some 0,
         event := some "Infrastructure deployment completed successfully with no issues detected.",
         severity := some "info" }] ∧
    (_generate_timeline_skeleton [criticalIssue, highIssue, mediumIssue]).head? = some
      { day := some 0,
        event := some "Initial infrastructure deployment detected",
        severity := some "info" } ∧
    List.Chain' (fun a b => a.day.getD 0 < b.day.getD 0)
      (_generate_timeline_skeleton [criticalIssue, highIssue, mediumIssue]) :=
  ⟨(timeline_skeleton_shape []).1 rfl,
   ((timeline_skeleton_shape [criticalIssue, highIssue, mediumIssue]).2 (by decide)).1,
   ((timeline_skeleton_shape [criticalIssue, highIssue, mediumIssue]).2
      (by decide)).2.2.2.2⟩

/-! ## Orchestrator (C1, C2, C3) -/

/-- C1: for every provider choice, AI call outcome, rule-engine result and
scorer behaviour, `analyze_content` (a total function: under the
collaborator contracts no exception escapes, every failure being absorbed
into the branch structure) returns a response whose `drift_score` lies in
`[0, 1]`, with the `issues` and `timeline` fields always present. -/
theorem analyze_content_total_drift_in_unit (choice : ProviderChoice)
    (callResult : AICallResult) (rules : List RuleIssue)
    (scorer : IssueD → Option ℚ) :
    0 ≤ (analyze_content choice callResult rules scorer).drift_score ∧
    (analyze_content choice callResult rules scorer).drift_score ≤ 1 := by
  have e0 : (0.0 : ℚ) = 0 := by norm_num
  have e1 : (1.0 : ℚ) = 1 := by norm_num
  simp only [analyze_content, e0, e1]
  exact ⟨le_max_left _ _, max_le (by norm_num) (min_le_left _ _)⟩

/-- C2 (code behaviour at the failing input): an Ollama provider is
selected, the AI call yields a dict with zero issues, so the rule-engine
fallback produces the response — yet the response still reports
`provider = "ollama"` and `model = "llama3:latest"` instead of the
`rule-engine`/`null` the specification requires, because the provider reset
on this branch is guarded by
`if not provider_name or provider_name == "rule-engine"`. -/
theorem zero_issue_ai_fallback_keeps_selected_provider :
    (analyze_content ⟨"ollama", some "llama3:latest", true⟩
        (AICallResult.returnsDict { issues := some [] }) []
        (fun _ => none)).provider = "ollama" ∧
    (analyze_content ⟨"ollama", some "llama3:latest", true⟩
        (AICallResult.returnsDict { issues := some [] }) []
        (fun _ => none)).model = some "llama3:latest" := by
  constructor <;> rfl

/-- The AI-branch renormalization of an already-validated score is the
identity: a validated score is in `[0, 1]`, so the `> 1` rescale does not
fire and the clamp returns the score unchanged. -/
lemma analyze_content_ai_branch (choice : ProviderChoice) (d : AIDict)
    (rules : List RuleIssue) (scorer : IssueD → Option ℚ)
    (hclient : choice.clientPresent = true)
    (hne : (validateAIResult d).issues ≠ []) :
    analyze_content choice (AICallResult.returnsDict d) rules scorer =
      { drift_score := (validateAIResult d).drift_score,
        timeline := (validateAIResult d).timeline.map (fun event =>
          { day := event.day.getD 0,
            event := event.event.getD "",
            severity := _normalize_timeline_severity (event.severity.getD "info") }),
        issues := buildIssuesFrom 1 (_add_oumi_scores scorer (validateAIResult d).issues),
        provider := choice.provider_name,
        model := choice.model_name } := by
  have hai : _analyze_with_ai choice.clientPresent (AICallResult.returnsDict d)
      = some (validateAIResult d) := by
    rw [hclient]
    rfl
  have h0 := (validateAIResult_drift_mem d).1
  have h1 := (validateAIResult_drift_mem d).2
  have e0 : (0.0 : ℚ) = 0 := by norm_num
  have e1 : (1.0 : ℚ) = 1 := by norm_num
  have hif : (if (validateAIResult d).drift_score > 1 then
        min ((validateAIResult d).drift_score / 100.0) 1
      else (validateAIResult d).drift_score) = (validateAIResult d).drift_score :=
    if_neg (not_lt.mpr h1)
  have hclamp : max 0 (min 1 (validateAIResult d).drift_score)
      = (validateAIResult d).drift_score := by
    rw [min_eq_right h1, max_eq_right h0]
  simp only [analyze_content, hai, if_pos hne, e0, e1, hif, hclamp]

/-- C3: when the client is present and the AI dict validates to at least one
issue, the response adopts the AI issues, timeline and normalized drift
score as authoritative, reports the selected provider and model, and does
not depend on the rule engine at all (same response for any rule-engine
output). -/
theorem ai_result_with_issues_authoritative (choice : ProviderChoice)
    (d : AIDict) (rules rules2 : List RuleIssue) (scorer : IssueD → Option ℚ)
    (hclient : choice.clientPresent = true)
    (hne : (validateAIResult d).issues ≠ []) :
    (analyze_content choice (AICallResult.returnsDict d) rules scorer).provider
      = choice.provider_name ∧
    (analyze_content choice (AICallResult.returnsDict d) rules scorer).model
      = choice.model_name ∧
    (analyze_content choice (AICallResult.returnsDict d) rules scorer).drift_score
      = (validateAIResult d).drift_score ∧
    (analyze_content choice (AICallResult.returnsDict d) rules scorer).timeline
      = (validateAIResult d).timeline.map (fun event =>
          { day := event.day.getD 0,
            event := event.event.getD "",
            severity := _normalize_timeline_severity (event.severity.getD "info") }) ∧
    (analyze_content choice (AICallResult.returnsDict d) rules scorer).issues
      = buildIssuesFrom 1 (_add_oumi_scores scorer (validateAIResult d).issues) ∧
    analyze_content choice (AICallResult.returnsDict d) rules scorer
      = analyze_content choice (AICallResult.returnsDict d) rules2 scorer := by
  have h := analyze_content_ai_branch choice d rules scorer hclient hne
  have h2 := analyze_content_ai_branch choice d rules2 scorer hclient hne
  exact ⟨by rw [h], by rw [h], by rw [h], by rw [h], by rw [h], h.trans h2.symm⟩

/-- Witness for C3: a Gemini choice with an AI dict holding one high issue
and a score of 0.42; the response reports gemini and the validated score,
for two different rule-engine outputs. -/
theorem ai_result_with_issues_authoritative_witness :
    (analyze_content ⟨"gemini", some "gemini-1.5-flash", true⟩
        (AICallResult.returnsDict
          { drift_score := some 0.42, issues := some [highIssue] })
        [] (fun _ => none)).provider = "gemini" ∧
    (analyze_content ⟨"gemini", some "gemini-1.5-flash", true⟩
        (AICallResult.returnsDict
          { drift_score := some 0.42, issues := some [highIssue] })
        [] (fun _ => none)).drift_score
      = (validateAIResult
          { drift_score := some 0.42, issues := some [highIssue] }).drift_score :=
  ⟨(ai_result_with_issues_authoritative ⟨"gemini", some "gemini-1.5-flash", true⟩
      { drift_score := some 0.42, issues := some [highIssue] } [] [] (fun _ => none)
      rfl (by decide)).1,
   (ai_result_with_issues_authoritative ⟨"gemini", some "gemini-1.5-flash", true⟩
      { drift_score := some 0.42, issues := some [highIssue] } [] [] (fun _ => none)
      rfl (by decide)).2.2.1⟩
